import Mathlib

/-!
Shallow embedding of the Euclidean step-sequencer core (`src/App.tsx`):
the pattern generator `generatePattern`, the master-to-local step mapping
used by the `scheduleRepeat` callback, the per-track fire/dedup decision,
and the start/stop/pause handlers of the `EuclideanSequencer` component.

Numeric conventions.  JavaScript numbers are IEEE-754 binary64 doubles,
and the accumulation `index += increment` in `generatePattern` is *not*
exact (e.g. at `steps = 12, pulses = 9` the seventh pulse's index reaches
7.999999999999999 and marks entry 7, where exact arithmetic would mark 8).
The embedding therefore models binary64 arithmetic exactly: every value
arising in the generator is a nonnegative dyadic rational, represented by
a significand/scale pair `Dbl` (value `m * 2 ^ (-s)`); the division
`steps / pulses` and each addition are performed as exact rational
operations followed by rounding to nearest, ties to even, at 53
significant bits, with the quantum floored at `2 ^ (-1074)` (subnormals).
Overflow to infinity and inputs beyond `2 ^ 53` are outside the modeled
range; every value reachable from the program's input ranges stays far
below them.  The master-to-local mapping
`Math.floor(currentStep / 32 * steps) % steps` is exact in binary64 for
`currentStep < 32`, `steps ≤ 32` (all intermediates are dyadic rationals
far below `2 ^ 53`), so it is embedded as natural division
`currentStep * steps / 32 % steps`.
-/

namespace EuclidApp

/-! ### Exact model of binary64 arithmetic on nonnegative values -/

/-- Fuel-based floor of the base-2 logarithm (`natLog2F n n` computes
`⌊log2 n⌋` for `n ≥ 1`: the argument halves each step, so fuel `n` is
plenty). -/
def natLog2F : Nat → Nat → Nat
  | 0, _ => 0
  | fuel + 1, n => if n ≤ 1 then 0 else natLog2F fuel (n / 2) + 1

/-- Floor of the base-2 logarithm of a natural number (0 for 0). -/
def natLog2 (n : Nat) : Nat := natLog2F n n

/-- Floor of the base-2 logarithm of the positive rational `a / b`:
`natLog2 a - natLog2 b` is correct up to one, and one comparison of
`a / b` against `2 ^ c` settles it. -/
def ratFloorLog2 (a b : Nat) : Int :=
  let c : Int := (natLog2 a : Int) - (natLog2 b : Int)
  if 0 ≤ c then (if a < b * 2 ^ c.toNat then c - 1 else c)
  else (if a * 2 ^ (-c).toNat < b then c - 1 else c)

/-- Rounding of the fraction `n / d` (with `d > 0`) to the nearest
integer, ties going to the even neighbour — the IEEE-754 default. -/
def roundHalfEven (n d : Nat) : Nat :=
  let q := n / d
  let r := n % d
  if 2 * r < d then q
  else if d < 2 * r then q + 1
  else if q % 2 = 0 then q else q + 1

/-- A nonnegative binary64 value, held exactly as the dyadic rational
`m * 2 ^ (-s)`.  (Every finite double is such a rational; the operations
below produce correctly rounded results, so only representable values
arise.) -/
structure Dbl where
  m : Nat
  s : Nat

/-- Rounding of the rational `a / b` (with `b > 0`) to the nearest
binary64 value: the significand keeps 53 bits (unit in the last place
`2 ^ (e - 52)` for magnitude exponent `e`), floored at the subnormal
quantum `2 ^ (-1074)`; ties go to even. -/
def roundRatDbl (a b : Nat) : Dbl :=
  let e := ratFloorLog2 a b
  let u := if e - 52 < -1074 then (-1074 : Int) else e - 52
  if 0 ≤ u then ⟨roundHalfEven a (b * 2 ^ u.toNat) * 2 ^ u.toNat, 0⟩
  else ⟨roundHalfEven (a * 2 ^ (-u).toNat) b, (-u).toNat⟩

/-- Binary64 addition: the exact sum of the two dyadic values, rounded
to the nearest double. -/
def Dbl.add (x y : Dbl) : Dbl :=
  let s := max x.s y.s
  roundRatDbl (x.m * 2 ^ (s - x.s) + y.m * 2 ^ (s - y.s)) (2 ^ s)

/-- Embedding of `Math.floor` on a nonnegative double. -/
def Dbl.floorNat (x : Dbl) : Nat := x.m / 2 ^ x.s

/-! ### The program -/

/-- Marking loop of `generatePattern` (App.tsx lines 103-107): walk `n`
times, each time setting entry `⌊index⌋ % steps` to `true` and advancing
`index` by `increment` — a rounded binary64 addition. -/
def markPulses (steps : Nat) (increment : Dbl) : Nat → Dbl → List Bool → List Bool
  | 0, _, pat => pat
  | n + 1, index, pat =>
      markPulses steps increment n (index.add increment)
        (pat.set (index.floorNat % steps) true)

/-- Embedding of `generatePattern(steps, pulses, rotations)` (App.tsx
lines 99-110): early all-false return for `pulses === 0`, the marking
loop with the rounded increment `steps / pulses` starting from index 0,
then the slice-based rotation
`[...pattern.slice(rotations), ...pattern.slice(0, rotations)]`. -/
def generatePattern (steps pulses rotations : Nat) : List Bool :=
  if pulses = 0 then List.replicate steps false
  else
    let increment := roundRatDbl steps pulses
    let pattern := markPulses steps increment pulses ⟨0, 0⟩ (List.replicate steps false)
    pattern.drop rotations ++ pattern.take rotations

/-- Embedding of the pattern actually installed by the `Track` effect
(App.tsx line 113): `generatePattern(steps, Math.min(pulses, steps),
rotations)` — pulses are clamped with `min`, rotations are passed through. -/
def trackEffectPattern (steps pulses rotations : Nat) : List Bool :=
  generatePattern steps (min pulses steps) rotations

/-- Embedding of `Math.floor(currentStepRef.current / 32 * track.steps) %
track.steps` (App.tsx line 462), the master-to-local step mapping (exact
in binary64 on its reachable inputs, see the header). -/
def localStep (masterStep trackSteps : Nat) : Nat :=
  masterStep * trackSteps / 32 % trackSteps

/-- Per-track data read by the scheduling callback: the step count and the
pattern snapshot. -/
structure TrackSettings where
  steps : Nat
  pattern : List Bool
deriving DecidableEq

/-- One track's slice of the `scheduleRepeat` callback (App.tsx lines
462-467): compute the local step; if the pattern bit there is set (an
absent/out-of-range entry reads as false, like a JS `undefined`) and the
remembered `lastPlayedStepRef` entry differs (an absent entry, modelled as
`none`, always differs), fire and remember the step; otherwise leave the
memory alone and do not fire.  Returns the new memory and whether a note
was scheduled. -/
def tickTrack (tr : TrackSettings) (master : Nat) (last : Option Nat) :
    Option Nat × Bool :=
  let trackStep := localStep master tr.steps
  if tr.pattern.getD trackStep false = true ∧ last ≠ some trackStep then
    (some trackStep, true)
  else
    (last, false)

/-- Sequencer-level mutable state of `EuclideanSequencer`:
`currentStepRef`, `lastPlayedStepRef` (a record from track id to last fired
local step; absent keys are `none`), and the `isPlaying` / `isPaused`
flags. -/
structure SeqState where
  masterStep : Nat
  lastPlayed : Nat → Option Nat
  isPlaying : Bool
  isPaused : Bool

/-- The initial state of the component: step 0, empty dedup record, not
playing, not paused. -/
def initialState : SeqState :=
  { masterStep := 0, lastPlayed := fun _ => none, isPlaying := false, isPaused := false }

/-- Embedding of one invocation of the `scheduleRepeat` callback (App.tsx
lines 459-472): iterate over the registered tracks, updating the dedup
record for each fired track, then advance the master step mod 32.  Returns
the new state and the ids of the tracks that fired. -/
def tick (tracks : List (Nat × TrackSettings)) (s : SeqState) :
    SeqState × List Nat :=
  let folded := tracks.foldl
    (fun (acc : (Nat → Option Nat) × List Nat) t =>
      let res := tickTrack t.2 s.masterStep (acc.1 t.1)
      if res.2 then
        (fun tid => if tid = t.1 then res.1 else acc.1 tid, acc.2 ++ [t.1])
      else acc)
    (s.lastPlayed, [])
  ({ s with masterStep := (s.masterStep + 1) % 32, lastPlayed := folded.1 },
   folded.2)

/-- Run `n` consecutive callback invocations, counting the total number of
fire events. -/
def runTicks (tracks : List (Nat × TrackSettings)) : Nat → SeqState → SeqState × Nat
  | 0, s => (s, 0)
  | n + 1, s =>
      let r := tick tracks s
      let rest := runTicks tracks n r.1
      (rest.1, r.2.length + rest.2)

/-- Embedding of `startSequencer` (App.tsx lines 423-430): starts the
transport and sets the flags; the master step and dedup record are not
touched. -/
def startSequencer (s : SeqState) : SeqState :=
  { s with isPlaying := true, isPaused := false }

/-- Embedding of `stopSequencer` (App.tsx lines 432-440): stops the
transport, clears the flags, resets `currentStepRef` to 0 and
`lastPlayedStepRef` to the empty record. -/
def stopSequencer (_ : SeqState) : SeqState :=
  { masterStep := 0, lastPlayed := fun _ => none, isPlaying := false, isPaused := false }

/-- Embedding of `pauseSequencer` (App.tsx lines 442-447): pauses the
transport and sets the flags; the master step and dedup record are not
touched. -/
def pauseSequencer (s : SeqState) : SeqState :=
  { s with isPlaying := false, isPaused := true }

/-! ### Basic lemmas -/

lemma markPulses_length (s : Nat) (inc : Dbl) (n : Nat) :
    ∀ (idx : Dbl) (pat : List Bool), (markPulses s inc n idx pat).length = pat.length := by
  induction n with
  | zero => intro idx pat; rfl
  | succ n ih =>
      intro idx pat
      rw [markPulses, ih]
      exact List.length_set ..

lemma generatePattern_length (s p r : Nat) : (generatePattern s p r).length = s := by
  unfold generatePattern
  split
  · simp
  · simp [markPulses_length]
    omega

lemma generatePattern_rotation_overflow (s p r : Nat) (hr : s ≤ r) :
    generatePattern s p r = generatePattern s p 0 := by
  unfold generatePattern
  split
  · rfl
  · have hlen : (markPulses s (roundRatDbl s p) p ⟨0, 0⟩ (List.replicate s false)).length = s := by
      rw [markPulses_length]
      exact List.length_replicate ..
    simp only [List.drop_zero, List.take_zero, List.append_nil]
    rw [List.drop_eq_nil_of_le (by omega), List.take_of_length_le (by omega)]
    simp

lemma getD_true_lt_length (l : List Bool) (k : Nat) (h : l.getD k false = true) :
    k < l.length := by
  by_contra hk
  push_neg at hk
  rw [List.getD_eq_getElem?_getD, List.getElem?_eq_none (by omega)] at h
  simp at h

/-! ### An evaluation-friendly clone of the generator

`markPulses` passes the accumulated index along unevaluated, which makes
naive kernel evaluation re-derive it once per use and blow up
exponentially.  `markPulsesF` is the same function (proved equal below),
but forces the significand and scale of the accumulated index to numeric
literals before recursing, so evaluation is linear; the exhaustive count
checks below run on it. -/

/-- Continuation applied to a forced numeric literal; semantically the
identity (see `forceNat_eq`). -/
def forceNat (n : Nat) (k : Nat → α) : α :=
  match n with
  | 0 => k 0
  | m + 1 => k (m + 1)

lemma forceNat_eq (n : Nat) (k : Nat → α) : forceNat n k = k n := by
  cases n <;> rfl

/-- Clone of `markPulses` that forces the accumulated index's fields. -/
def markPulsesF (steps : Nat) (increment : Dbl) : Nat → Dbl → List Bool → List Bool
  | 0, _, pat => pat
  | n + 1, index, pat =>
      forceNat (index.add increment).m (fun m2 =>
        forceNat (index.add increment).s (fun s2 =>
          markPulsesF steps increment n ⟨m2, s2⟩
            (pat.set (index.floorNat % steps) true)))

lemma markPulsesF_eq (steps : Nat) (inc : Dbl) :
    ∀ (n : Nat) (index : Dbl) (pat : List Bool),
      markPulsesF steps inc n index pat = markPulses steps inc n index pat := by
  intro n
  induction n with
  | zero => intro index pat; rfl
  | succ n ih =>
      intro index pat
      rw [markPulsesF, forceNat_eq, forceNat_eq, ih, markPulses]

/-- Clone of `generatePattern` over `markPulsesF`. -/
def generatePatternF (steps pulses rotations : Nat) : List Bool :=
  if pulses = 0 then List.replicate steps false
  else
    let increment := roundRatDbl steps pulses
    let pattern := markPulsesF steps increment pulses ⟨0, 0⟩ (List.replicate steps false)
    pattern.drop rotations ++ pattern.take rotations

lemma generatePatternF_eq (s p r : Nat) : generatePatternF s p r = generatePattern s p r := by
  unfold generatePatternF generatePattern
  simp only [markPulsesF_eq]

/-! ### Exhaustive count checks, one step count at a time -/

set_option maxHeartbeats 4000000 in
set_option maxRecDepth 40000 in
lemma genCountAux1 : ∀ p < 2, (generatePatternF 1 p 0).count true = p := by
  decide
set_option maxHeartbeats 4000000 in
set_option maxRecDepth 40000 in
lemma genCountAux2 : ∀ p < 3, (generatePatternF 2 p 0).count true = p := by
  decide
set_option maxHeartbeats 4000000 in
set_option maxRecDepth 40000 in
lemma genCountAux3 : ∀ p < 4, (generatePatternF 3 p 0).count true = p := by
  decide
set_option maxHeartbeats 4000000 in
set_option maxRecDepth 40000 in
lemma genCountAux4 : ∀ p < 5, (generatePatternF 4 p 0).count true = p := by
  decide
set_option maxHeartbeats 4000000 in
set_option maxRecDepth 40000 in
lemma genCountAux5 : ∀ p < 6, (generatePatternF 5 p 0).count true = p := by
  decide
set_option maxHeartbeats 4000000 in
set_option maxRecDepth 40000 in
lemma genCountAux6 : ∀ p < 7, (generatePatternF 6 p 0).count true = p := by
  decide
set_option maxHeartbeats 4000000 in
set_option maxRecDepth 40000 in
lemma genCountAux7 : ∀ p < 8, (generatePatternF 7 p 0).count true = p := by
  decide
set_option maxHeartbeats 4000000 in
set_option maxRecDepth 40000 in
lemma genCountAux8 : ∀ p < 9, (generatePatternF 8 p 0).count true = p := by
  decide
set_option maxHeartbeats 4000000 in
set_option maxRecDepth 40000 in
lemma genCountAux9 : ∀ p < 10, (generatePatternF 9 p 0).count true = p := by
  decide
set_option maxHeartbeats 4000000 in
set_option maxRecDepth 40000 in
lemma genCountAux10 : ∀ p < 11, (generatePatternF 10 p 0).count true = p := by
  decide
set_option maxHeartbeats 4000000 in
set_option maxRecDepth 40000 in
lemma genCountAux11 : ∀ p < 12, (generatePatternF 11 p 0).count true = p := by
  decide
set_option maxHeartbeats 4000000 in
set_option maxRecDepth 40000 in
lemma genCountAux12 : ∀ p < 13, (generatePatternF 12 p 0).count true = p := by
  decide
set_option maxHeartbeats 4000000 in
set_option maxRecDepth 40000 in
lemma genCountAux13 : ∀ p < 14, (generatePatternF 13 p 0).count true = p := by
  decide
set_option maxHeartbeats 4000000 in
set_option maxRecDepth 40000 in
lemma genCountAux14 : ∀ p < 15, (generatePatternF 14 p 0).count true = p := by
  decide
set_option maxHeartbeats 4000000 in
set_option maxRecDepth 40000 in
lemma genCountAux15 : ∀ p < 16, (generatePatternF 15 p 0).count true = p := by
  decide
set_option maxHeartbeats 4000000 in
set_option maxRecDepth 40000 in
lemma genCountAux16 : ∀ p < 17, (generatePatternF 16 p 0).count true = p := by
  decide
set_option maxHeartbeats 4000000 in
set_option maxRecDepth 40000 in
lemma genCountAux17 : ∀ p < 18, (generatePatternF 17 p 0).count true = p := by
  decide
set_option maxHeartbeats 4000000 in
set_option maxRecDepth 40000 in
lemma genCountAux18 : ∀ p < 19, (generatePatternF 18 p 0).count true = p := by
  decide
set_option maxHeartbeats 4000000 in
set_option maxRecDepth 40000 in
lemma genCountAux19 : ∀ p < 20, (generatePatternF 19 p 0).count true = p := by
  decide
set_option maxHeartbeats 4000000 in
set_option maxRecDepth 40000 in
lemma genCountAux20 : ∀ p < 21, (generatePatternF 20 p 0).count true = p := by
  decide
set_option maxHeartbeats 4000000 in
set_option maxRecDepth 40000 in
lemma genCountAux21 : ∀ p < 22, (generatePatternF 21 p 0).count true = p := by
  decide
set_option maxHeartbeats 4000000 in
set_option maxRecDepth 40000 in
lemma genCountAux22 : ∀ p < 23, (generatePatternF 22 p 0).count true = p := by
  decide
set_option maxHeartbeats 4000000 in
set_option maxRecDepth 40000 in
lemma genCountAux23 : ∀ p < 24, (generatePatternF 23 p 0).count true = p := by
  decide
set_option maxHeartbeats 4000000 in
set_option maxRecDepth 40000 in
lemma genCountAux24 : ∀ p < 25, (generatePatternF 24 p 0).count true = p := by
  decide
set_option maxHeartbeats 4000000 in
set_option maxRecDepth 40000 in
lemma genCountAux25 : ∀ p < 26, (generatePatternF 25 p 0).count true = p := by
  decide
set_option maxHeartbeats 4000000 in
set_option maxRecDepth 40000 in
lemma genCountAux26 : ∀ p < 27, (generatePatternF 26 p 0).count true = p := by
  decide
set_option maxHeartbeats 4000000 in
set_option maxRecDepth 40000 in
lemma genCountAux27 : ∀ p < 28, (generatePatternF 27 p 0).count true = p := by
  decide
set_option maxHeartbeats 4000000 in
set_option maxRecDepth 40000 in
lemma genCountAux28 : ∀ p < 29, (generatePatternF 28 p 0).count true = p := by
  decide
set_option maxHeartbeats 4000000 in
set_option maxRecDepth 40000 in
lemma genCountAux29 : ∀ p < 30, (generatePatternF 29 p 0).count true = p := by
  decide
set_option maxHeartbeats 4000000 in
set_option maxRecDepth 40000 in
lemma genCountAux30 : ∀ p < 31, (generatePatternF 30 p 0).count true = p := by
  decide
set_option maxHeartbeats 4000000 in
set_option maxRecDepth 40000 in
lemma genCountAux31 : ∀ p < 32, (generatePatternF 31 p 0).count true = p := by
  decide
set_option maxHeartbeats 4000000 in
set_option maxRecDepth 40000 in
lemma genCountAux32 : ∀ p < 33, (generatePatternF 32 p 0).count true = p := by
  decide

/-- Exhaustive over the program's input range: for `steps ∈ [1,32]` and
`pulses ∈ [0,steps]` the generated pattern has exactly `pulses` active
entries (this is a fact about the rounded binary64 accumulation; it is
checked case by case, since the marks do not always land where exact
arithmetic would put them). -/
lemma generatePattern_count_eq (s p : Nat) (hs : 1 ≤ s) (h32 : s ≤ 32) (hp : p ≤ s) :
    (generatePattern s p 0).count true = p := by
  rw [← generatePatternF_eq]
  interval_cases s
  · exact genCountAux1 p (by omega)
  · exact genCountAux2 p (by omega)
  · exact genCountAux3 p (by omega)
  · exact genCountAux4 p (by omega)
  · exact genCountAux5 p (by omega)
  · exact genCountAux6 p (by omega)
  · exact genCountAux7 p (by omega)
  · exact genCountAux8 p (by omega)
  · exact genCountAux9 p (by omega)
  · exact genCountAux10 p (by omega)
  · exact genCountAux11 p (by omega)
  · exact genCountAux12 p (by omega)
  · exact genCountAux13 p (by omega)
  · exact genCountAux14 p (by omega)
  · exact genCountAux15 p (by omega)
  · exact genCountAux16 p (by omega)
  · exact genCountAux17 p (by omega)
  · exact genCountAux18 p (by omega)
  · exact genCountAux19 p (by omega)
  · exact genCountAux20 p (by omega)
  · exact genCountAux21 p (by omega)
  · exact genCountAux22 p (by omega)
  · exact genCountAux23 p (by omega)
  · exact genCountAux24 p (by omega)
  · exact genCountAux25 p (by omega)
  · exact genCountAux26 p (by omega)
  · exact genCountAux27 p (by omega)
  · exact genCountAux28 p (by omega)
  · exact genCountAux29 p (by omega)
  · exact genCountAux30 p (by omega)
  · exact genCountAux31 p (by omega)
  · exact genCountAux32 p (by omega)

/-! ### Claim theorems -/

/-- Claim C1, counterexample: a 1-pulse, 4-step track (pattern
`[T,F,F,F]`) does not fire again on re-entering its single active step.
After one full 32-tick master cycle the master step is back at 0, the
local step is back at the active step 0 (which was left — at master step 8
the local step was 1), the dedup memory still holds `some 0`, and the next
tick emits no fire; over two full cycles exactly one fire event is
emitted, not one per cycle as the claim states. -/
theorem singlePulse_track_does_not_refire :
    generatePattern 4 1 0 = [true, false, false, false] ∧
    ((runTicks [(1, ⟨4, [true, false, false, false]⟩)] 32
        (startSequencer initialState)).1.masterStep = 0 ∧
      (runTicks [(1, ⟨4, [true, false, false, false]⟩)] 32
        (startSequencer initialState)).1.lastPlayed 1 = some 0 ∧
      List.getD [true, false, false, false] (localStep 0 4) false = true ∧
      localStep 8 4 = 1 ∧
      (tick [(1, ⟨4, [true, false, false, false]⟩)]
        (runTicks [(1, ⟨4, [true, false, false, false]⟩)] 32
          (startSequencer initialState)).1).2 = [] ∧
      (runTicks [(1, ⟨4, [true, false, false, false]⟩)] 64
        (startSequencer initialState)).2 = 1) := by
  constructor
  · rw [← generatePatternF_eq]
    decide
  · decide

/-- Claim C1, amended: when the pattern bit at the computed local step is
inactive, the tick leaves `lastFiredLocalStep` unchanged and does not
fire; when the bit is active and the memory differs from the local step,
the tick fires and records it.  Consequently re-entering an active step
fires only if a *different* local step has been fired in between: for a
track whose pattern has exactly one active step `a`, once the memory
holds `a` no tick ever fires again (the track fires exactly once per
Start, not once per cycle). -/
theorem tickTrack_fire_and_dedup (tr : TrackSettings) (m : Nat)
    (last : Option Nat) (a : Nat) :
    (tr.pattern.getD (localStep m tr.steps) false = false →
      tickTrack tr m last = (last, false)) ∧
    (tr.pattern.getD (localStep m tr.steps) false = true →
      last ≠ some (localStep m tr.steps) →
      tickTrack tr m last = (some (localStep m tr.steps), true)) ∧
    ((∀ k, k < tr.pattern.length → tr.pattern.getD k false = true → k = a) →
      tickTrack tr m (some a) = (some a, false)) := by
  refine ⟨?_, ?_, ?_⟩
  · intro h
    simp only [tickTrack]
    rw [if_neg]
    rintro ⟨h1, _⟩
    rw [h] at h1
    exact Bool.noConfusion h1
  · intro h1 h2
    simp only [tickTrack]
    rw [if_pos ⟨h1, h2⟩]
  · intro huniq
    simp only [tickTrack]
    rw [if_neg]
    rintro ⟨h1, h2⟩
    have hlt : localStep m tr.steps < tr.pattern.length := getD_true_lt_length _ _ h1
    exact h2 (by rw [huniq _ hlt h1])

/-- Witness for the amended C1 theorem on the 1-pulse 4-step track. -/
theorem tickTrack_fire_and_dedup_witness :
    tickTrack ⟨4, [true, false, false, false]⟩ 8 (some 0) = (some 0, false) ∧
    tickTrack ⟨4, [true, false, false, false]⟩ 0 none = (some 0, true) ∧
    tickTrack ⟨4, [true, false, false, false]⟩ 0 (some 0) = (some 0, false) :=
  ⟨(tickTrack_fire_and_dedup ⟨4, [true, false, false, false]⟩ 8 (some 0) 0).1 (by decide),
   (tickTrack_fire_and_dedup ⟨4, [true, false, false, false]⟩ 0 none 0).2.1
     (by decide) (by decide),
   (tickTrack_fire_and_dedup ⟨4, [true, false, false, false]⟩ 0 (some 0) 0).2.2 (by decide)⟩

/-- Claim C2: for every `steps ∈ [1,32]` and `pulses ∈ [0,steps]`, the
generated pattern has length `steps` and exactly `pulses` active
entries. -/
theorem generatePattern_length_count (s p : Nat) (h1 : 1 ≤ s) (h2 : s ≤ 32)
    (hp : p ≤ s) :
    (generatePattern s p 0).length = s ∧ (generatePattern s p 0).count true = p :=
  ⟨generatePattern_length s p 0, generatePattern_count_eq s p h1 h2 hp⟩

/-- Witness for C2 at `steps = 8`, `pulses = 3`. -/
theorem generatePattern_length_count_witness :
    (generatePattern 8 3 0).length = 8 ∧ (generatePattern 8 3 0).count true = 3 :=
  generatePattern_length_count 8 3 (by decide) (by decide) (by decide)

/-- Claim C3: across two consecutive ticks whose master steps map to the
same local step, at most one fire event is emitted for the track — if the
first tick fired, the dedup memory equals the local step, so the second
tick cannot fire. -/
theorem consecutive_same_localStep_at_most_one_fire (tr : TrackSettings)
    (m1 m2 : Nat) (last : Option Nat)
    (h : localStep m2 tr.steps = localStep m1 tr.steps) :
    cond (tickTrack tr m1 last).2 1 0 +
      cond (tickTrack tr m2 (tickTrack tr m1 last).1).2 1 0 ≤ 1 := by
  simp only [tickTrack]
  rw [h]
  by_cases h1 : tr.pattern.getD (localStep m1 tr.steps) false = true ∧
      last ≠ some (localStep m1 tr.steps)
  · rw [if_pos h1, if_neg (by rintro ⟨_, hne⟩; exact hne rfl)]
    simp
  · rw [if_neg h1]
    split <;> simp

/-- Witness for C3: master steps 0 and 1 both map to local step 0 of a
4-step track. -/
theorem consecutive_same_localStep_at_most_one_fire_witness :
    cond (tickTrack ⟨4, [true, false, false, false]⟩ 0 none).2 1 0 +
      cond (tickTrack ⟨4, [true, false, false, false]⟩ 1
        (tickTrack ⟨4, [true, false, false, false]⟩ 0 none).1).2 1 0 ≤ 1 :=
  consecutive_same_localStep_at_most_one_fire ⟨4, [true, false, false, false]⟩
    0 1 none (by decide)

/-- Claim C4, counterexample: rotation is *not* clamped before pattern
generation.  With `steps = 2`, `pulses = 1` and a stale `rotations = 2`
(reachable after decreasing `steps`), the pattern installed by the track
effect is the unrotated one, which differs from the pattern generated from
the clamped rotation `min 2 (2 - 1) = 1`. -/
theorem rotation_not_clamped :
    trackEffectPattern 2 1 2 ≠ generatePattern 2 (min 1 2) (min 2 (2 - 1)) := by
  unfold trackEffectPattern
  rw [← generatePatternF_eq 2 (min 1 2) 2, ← generatePatternF_eq 2 (min 1 2) (min 2 (2 - 1))]
  decide

/-- Claim C4, amended: `pulses` is clamped to `[0, steps]` via `min`
before pattern generation and generation is total (the installed pattern
always has length `steps`, no error is raised for any input), but
`rotation` is not clamped: when `rotation ≥ steps` the installed pattern
equals the unrotated one, not the one from a clamped rotation. -/
theorem trackEffectPattern_clamping (s p r : Nat) :
    trackEffectPattern s p r = generatePattern s (min p s) r ∧
    min p s ≤ s ∧
    (trackEffectPattern s p r).length = s ∧
    (s ≤ r → trackEffectPattern s p r = trackEffectPattern s p 0) :=
  ⟨rfl, Nat.min_le_right p s, generatePattern_length s (min p s) r,
   fun h => generatePattern_rotation_overflow s (min p s) r h⟩

/-- Witness for the amended C4 theorem at `steps = 2`, `pulses = 1`,
`rotations = 5`. -/
theorem trackEffectPattern_clamping_witness :
    trackEffectPattern 2 1 5 = generatePattern 2 (min 1 2) 5 ∧
    min 1 2 ≤ 2 ∧
    (trackEffectPattern 2 1 5).length = 2 ∧
    trackEffectPattern 2 1 5 = trackEffectPattern 2 1 0 :=
  ⟨(trackEffectPattern_clamping 2 1 5).1,
   (trackEffectPattern_clamping 2 1 5).2.1,
   (trackEffectPattern_clamping 2 1 5).2.2.1,
   (trackEffectPattern_clamping 2 1 5).2.2.2 (by decide)⟩

set_option maxHeartbeats 1000000 in
lemma localStep_visits_all_aux : ∀ n < 33, ∀ v < n, ∃ m < 32, localStep m n = v := by
  decide

/-- Claim C5: for every track step count `n ∈ [1,32]`, the local-step
mapping visits every value in `[0,n)` as the master step ranges over
`[0,32)`. -/
theorem localStep_visits_every_local_index (n v : Nat) (h1 : 1 ≤ n)
    (h2 : n ≤ 32) (hv : v < n) :
    ∃ m, m < 32 ∧ localStep m n = v := by
  obtain ⟨m, hm, hms⟩ := localStep_visits_all_aux n (by omega) v hv
  exact ⟨m, hm, hms⟩

/-- Witness for C5 at `n = 5`, `v = 3`. -/
theorem localStep_visits_every_local_index_witness :
    ∃ m, m < 32 ∧ localStep m 5 = 3 :=
  localStep_visits_every_local_index 5 3 (by decide) (by decide) (by decide)

/-- Claim C7: `generatePattern 8 3 0` is exactly `[T,F,T,F,F,T,F,F]`
(active indices 0, 2, 5 — the even-spacing approximation's output; at this
input the binary64 trace floors 0, 2 and 5, pulse by pulse). -/
theorem generatePattern_8_3_example :
    generatePattern 8 3 0 = [true, false, true, false, false, true, false, false] := by
  rw [← generatePatternF_eq]
  decide

/-- Claim C8: from any state, Stop resets the master step to 0 and clears
every track's dedup memory, and a subsequent Start leaves that clean
state in place. -/
theorem stop_resets_master_and_dedup (s : SeqState) (tid : Nat) :
    (stopSequencer s).masterStep = 0 ∧
    (stopSequencer s).lastPlayed tid = none ∧
    (stopSequencer s).isPlaying = false ∧
    (stopSequencer s).isPaused = false ∧
    (startSequencer (stopSequencer s)).masterStep = 0 ∧
    (startSequencer (stopSequencer s)).lastPlayed tid = none ∧
    (startSequencer (stopSequencer s)).isPlaying = true :=
  ⟨rfl, rfl, rfl, rfl, rfl, rfl, rfl⟩

/-- Claim C9: Pause leaves the master step and the dedup memory unchanged,
Start from the paused state also leaves both unchanged, and the first
tick after resuming advances from the retained master step `k` (to
`(k + 1) % 32`), not from 0. -/
theorem pause_resume_preserves_position (s : SeqState)
    (tracks : List (Nat × TrackSettings)) :
    (pauseSequencer s).masterStep = s.masterStep ∧
    (pauseSequencer s).lastPlayed = s.lastPlayed ∧
    (pauseSequencer s).isPaused = true ∧
    (startSequencer (pauseSequencer s)).masterStep = s.masterStep ∧
    (startSequencer (pauseSequencer s)).lastPlayed = s.lastPlayed ∧
    (startSequencer (pauseSequencer s)).isPlaying = true ∧
    (tick tracks (startSequencer (pauseSequencer s))).1.masterStep =
      (s.masterStep + 1) % 32 :=
  ⟨rfl, rfl, rfl, rfl, rfl, rfl, rfl⟩

/-- Claim C10: `generatePattern` is total for every natural rotation — the
result always has length `steps`, and for `rotation ≥ steps` the
slice-based rotation degenerates to the identity, returning the unrotated
pattern. -/
theorem generatePattern_total_rotation (s p r : Nat) :
    (generatePattern s p r).length = s ∧
    (s ≤ r → generatePattern s p r = generatePattern s p 0) :=
  ⟨generatePattern_length s p r, fun h => generatePattern_rotation_overflow s p r h⟩

/-- Witness for C10 at `steps = 2`, `pulses = 1`, `rotation = 5`. -/
theorem generatePattern_total_rotation_witness :
    (generatePattern 2 1 5).length = 2 ∧
    generatePattern 2 1 5 = generatePattern 2 1 0 :=
  ⟨(generatePattern_total_rotation 2 1 5).1,
   (generatePattern_total_rotation 2 1 5).2 (by decide)⟩

end EuclidApp
